import Mathlib

/-!
# ScanShelf inventory core — verification development

Shallow embedding of the inventory data layer of the ScanShelf repository:

* `InventoryCodeService` (SKU / EAN-13 barcode generator,
  `src/unnamed/part_012`), and
* the SQLite-backed `DatabaseService`
  (`src/src/app/shared/services/database.service.ts`): products, movements,
  categories, the movement transaction, and the read cache.

JavaScript numbers that only ever hold integers in the source (ids, stock,
quantities, prices pass through unchanged and are never divided) are
modelled as `Int`/`Nat`.  Strings are Lean `String`s; the character-level
operations of the source (`slice`, `padStart`, `padEnd`, `split`,
`replace(/…/g,'')`, `parseInt`) are modelled on `String.data` character
lists.  `Date.now().toString()` is modelled by an explicit decimal-digit
function on `Nat` so that its character-level properties are provable.
-/

namespace ScanShelf

/-! ## String helpers (JS semantics) -/

/-- JS `s.padEnd(n, c)`: append copies of `c` until length `n`
(no-op when `s` is already at least that long). -/
def padEnd (s : String) (n : Nat) (c : Char) : String :=
  s ++ String.mk (List.replicate (n - s.length) c)

/-- JS `s.padStart(n, c)`. -/
def padStart (s : String) (n : Nat) (c : Char) : String :=
  String.mk (List.replicate (n - s.length) c) ++ s

/-- JS `s.slice(-n)`: the last `n` characters (all of `s` when shorter). -/
def sliceLast (s : String) (n : Nat) : String :=
  String.mk (s.data.drop (s.data.length - n))

/-- JS `s.trim()`: strip whitespace from both ends (character-level
implementation so that terms evaluate inside the kernel). -/
def strTrim (s : String) : String :=
  String.mk
    (((s.data.dropWhile Char.isWhitespace).reverse.dropWhile
        Char.isWhitespace).reverse)

/-- JS `s.toUpperCase()` (character-level). -/
def strToUpper (s : String) : String :=
  String.mk (s.data.map Char.toUpper)

/-- JS `s.startsWith(t)` (character-level). -/
def strStartsWith (s t : String) : Bool :=
  t.data.isPrefixOf s.data

/-- JS `s.slice(n)` / the tail after a prefix of `n` characters. -/
def strDrop (s : String) (n : Nat) : String :=
  String.mk (s.data.drop n)

/-- Split a character list at `'-'` (JS `split('-')` groups). -/
def dashSplit : List Char → List (List Char)
  | [] => [[]]
  | c :: rest =>
    if c = '-' then [] :: dashSplit rest
    else
      match dashSplit rest with
      | [] => [[c]]
      | g :: gs => (c :: g) :: gs

/-- JS `s.split('-')`. -/
def splitOnDash (s : String) : List String :=
  (dashSplit s.data).map String.mk

/-- Decimal value of the leading digit run of a character list;
`none` when the list does not start with a digit (JS `NaN`). -/
def digitRunVal (l : List Char) : Option Nat :=
  let ds := l.takeWhile Char.isDigit
  if ds.isEmpty then none
  else some (ds.foldl (fun a c => a * 10 + (c.toNat - 48)) 0)

/-- JS `parseInt(s)` in base 10: skip leading whitespace, optional sign,
then the leading digit run; `none` models `NaN`. -/
def jsParseInt (s : String) : Option Int :=
  match (strTrim s).data with
  | '-' :: rest => (digitRunVal rest).map (fun n => -(n : Int))
  | '+' :: rest => (digitRunVal rest).map (fun n => (n : Int))
  | l => (digitRunVal l).map (fun n => (n : Int))

/-- Decimal digit character for `d < 10`. -/
def decDigitChar (d : Nat) : Char := Char.ofNat (48 + d)

/-- Fuel-driven decimal digit list of `n` (most significant first);
any `fuel ≥ n` is enough. -/
def natDecDigitsAux : Nat → Nat → List Char
  | _, 0 => ['0']
  | 0, _ => []
  | fuel + 1, n =>
    if n < 10 then [decDigitChar n]
    else natDecDigitsAux fuel (n / 10) ++ [decDigitChar (n % 10)]

/-- Decimal string of a natural number; models JS `Number.prototype.toString`
for the nonnegative integers appearing in the source. -/
def natDecRepr (n : Nat) : String :=
  String.mk (natDecDigitsAux n n)

/-- Decimal string of an integer (JS `Number.prototype.toString`). -/
def intDecRepr (i : Int) : String :=
  if i < 0 then "-" ++ natDecRepr i.natAbs else natDecRepr i.toNat

/-- Componentwise decidable equality for `Except` results, so that
concrete runs of the fallible operations can be checked by `decide`. -/
instance {ε α : Type} [DecidableEq ε] [DecidableEq α] :
    DecidableEq (Except ε α) := fun a b =>
  match a, b with
  | .ok x, .ok y =>
    if h : x = y then .isTrue (by rw [h]) else .isFalse (by simp [h])
  | .error x, .error y =>
    if h : x = y then .isTrue (by rw [h]) else .isFalse (by simp [h])
  | .ok _, .error _ => .isFalse (by simp)
  | .error _, .ok _ => .isFalse (by simp)

/-! ## InventoryCodeService (`src/unnamed/part_012`) -/

/-- The fixed `CATEGORY_CODES` table of `InventoryCodeService`. -/
def CATEGORY_CODES : List (String × String) :=
  [("Electrónicos", "ELE"), ("Alimentación", "ALI"), ("Ropa", "ROP"),
   ("Hogar", "HOG"), ("Deportes", "DEP"), ("Salud", "SAL"),
   ("Belleza", "BEL"), ("Libros", "LIB"), ("Juguetes", "JUG"),
   ("Automóvil", "AUT"), ("Jardín", "JAR"), ("Herramientas", "HER"),
   ("Oficina", "OFI"), ("Mascotas", "MAS"), ("Bebés", "BEB"),
   ("Música", "MUS"), ("Otros", "OTR")]

/-- `getCategoryCode` / `getCategoryCodeByName`:
`CATEGORY_CODES[category] || 'OTR'`. -/
def getCategoryCode (category : String) : String :=
  (CATEGORY_CODES.lookup category).getD "OTR"

/-- JS regex class `[A-Z]` (the source applies it to an upper-cased string). -/
def isUpperAZ (c : Char) : Bool := decide ('A' ≤ c ∧ c ≤ 'Z')

/-- JS regex class `[A-Z0-9]`. -/
def isUpperAZDigit (c : Char) : Bool :=
  decide (('A' ≤ c ∧ c ≤ 'Z') ∨ ('0' ≤ c ∧ c ≤ '9'))

/-- `generateBrandCode` of `InventoryCodeService`. -/
def generateBrandCode (brand : String) : String :=
  if (strTrim brand).length = 0 then "GEN"
  else
    let cleanBrand := strToUpper (strTrim brand)
    if cleanBrand.length ≤ 3 then padEnd cleanBrand 3 'X'
    else
      let alphaOnly := String.mk (cleanBrand.data.filter isUpperAZ)
      if 3 ≤ alphaOnly.length then String.mk (alphaOnly.data.take 3)
      else padEnd (String.mk ((cleanBrand.data.filter isUpperAZDigit).take 3)) 3 'X'

/-- `generateCustomSKU category brand existingSKUs`: the
`[CATEGORY]-[BRAND]-[NUMBER]` SKU generator of `InventoryCodeService`. -/
def generateCustomSKU (category brand : String) (existingSKUs : List String) :
    String :=
  let categoryCode := getCategoryCode category
  let brandCode := generateBrandCode brand
  let skuPfx := categoryCode ++ "-" ++ brandCode ++ "-"
  let matchingSKUs := existingSKUs.filter (fun sku => strStartsWith sku skuPfx)
  -- `sku.split('-')[2]` then `parseInt`, dropping `NaN`s
  let existingNumbers :=
    matchingSKUs.filterMap (fun sku => jsParseInt ((splitOnDash sku).getD 2 ""))
  let nextNumber : Int :=
    if matchingSKUs.isEmpty then 1
    else match existingNumbers with
      | [] => 1
      | n :: rest => rest.foldl max n + 1
  let formattedNumber := padStart (intDecRepr nextNumber) 3 '0'
  categoryCode ++ "-" ++ brandCode ++ "-" ++ formattedNumber

/-- `parseInt(code[i])` for the digit characters fed to the checksum. -/
def charDigitVal (c : Char) : Nat := c.toNat - 48

/-- The weighted sum of `calculateEAN13CheckDigit`'s loop, starting at
position `i`: weight 1 at even 0-indexed positions, 3 at odd ones. -/
def ean13Sum : Nat → List Char → Nat
  | _, [] => 0
  | i, c :: rest =>
    charDigitVal c * (if i % 2 = 0 then 1 else 3) + ean13Sum (i + 1) rest

/-- `calculateEAN13CheckDigit` of `InventoryCodeService`. -/
def calculateEAN13CheckDigit (code : String) : String :=
  natDecRepr ((10 - (ean13Sum 0 code.data) % 10) % 10)

/-- `generateBarcode` of `InventoryCodeService`.  The two ambient inputs are
made explicit: `now` is the `Date.now()` value and `randDigit` is
`Math.floor(Math.random() * 10)` (a digit, see `randDigit < 10` hypotheses). -/
def generateBarcode (now randDigit : Nat) : String :=
  let pfx := "789"
  let timestamp := sliceLast (natDecRepr now) 8
  let randomSuffix := natDecRepr randDigit
  let baseCode := pfx ++ timestamp ++ randomSuffix
  baseCode ++ calculateEAN13CheckDigit baseCode

/-- `validateBarcodeFormat` of `InventoryCodeService`: length 13, all
digits (`/^\d{13}$/`), and the recomputed check digit matches the last. -/
def validateBarcodeFormat (barcode : String) : Bool :=
  if barcode.length ≠ 13 then false
  else if !(barcode.data.all Char.isDigit) then false
  else
    let code := String.mk (barcode.data.take 12)
    let checkDigit := String.mk (barcode.data.drop 12)
    checkDigit == calculateEAN13CheckDigit code

/-- The retry loop of `generateAlternativeBarcode`.  `cand i` is the
candidate produced by the `i`-th call to `generateBarcode()` (each call
draws fresh `Date.now()` / `Math.random()` values, so the candidate stream
is an explicit input); `attempts` counts calls already made.  The source's
do/while makes at most 10 calls, so fuel 10 is never exhausted. -/
def genAltGo (existingBarcodes : List String) (cand : Nat → String) :
    Nat → Nat → String
  | _, 0 => ""
  | attempts, fuel + 1 =>
    let barcode := cand attempts
    if existingBarcodes.contains barcode ∧ attempts + 1 < 10 then
      genAltGo existingBarcodes cand (attempts + 1) fuel
    else barcode

/-- `generateAlternativeBarcode` of `InventoryCodeService`: regenerate
while the candidate collides with `existingBarcodes`, up to 10 calls, then
return the current candidate (colliding or not). -/
def generateAlternativeBarcode (existingBarcodes : List String)
    (cand : Nat → String) : String :=
  genAltGo existingBarcodes cand 0 10

/-! ## DatabaseService: data model
(`src/src/app/shared/services/database.service.ts`)

The persisted SQLite rows, as created by `createTables`.  The `products`
table declares NO `UNIQUE` constraint on `sku` or `barcode` (only
`categories.name` / `categories.code` are `UNIQUE`); `movements` carries
`CHECK` constraints on `type`, `quantity` and `reason`.  The `image` column
is never written by `addProduct`/`updateProduct`'s column lists and is
omitted; `REAL` columns (`price`, `weight`, `length`, `width`, `height`)
only ever hold caller-supplied numbers that pass through unchanged and are
modelled as `Int`. -/

/-- A row of the `products` table. -/
structure Product where
  id : Int
  name : String
  sku : String
  barcode : String
  category : String
  stock : Int
  minStock : Int
  price : Int
  description : String
  brand : String
  weight : Int
  length : Int
  width : Int
  height : Int
  status : String
  createdAt : String
  updatedAt : String
deriving DecidableEq, Repr

/-- `type TEXT CHECK (type IN ('entrada','salida','ajuste'))`; the TS union
type `'entrada' | 'salida' | 'ajuste'`. -/
inductive MType where
  | entrada | salida | ajuste
deriving DecidableEq, Repr

/-- A row of the `movements` table.  `addMovement`'s INSERT lists
`(productId, type, quantity, previousStock, newStock, reason, userId)`;
`notes` is never inserted and is omitted, `createdAt` defaults to
`CURRENT_TIMESTAMP`. -/
structure MovementRow where
  id : Int
  productId : Int
  type : MType
  quantity : Int
  previousStock : Int
  newStock : Int
  reason : String
  userId : String
  createdAt : String
deriving DecidableEq, Repr

/-- A row of the `categories` table. -/
structure Category where
  id : Int
  name : String
  code : String
  description : String
  color : String
  icon : String
  isActive : Bool
deriving DecidableEq, Repr

/-- The persistent store: the three tables of the core plus the
`AUTOINCREMENT` counters. -/
structure DBState where
  products : List Product
  movements : List MovementRow
  categories : List Category
  nextProductId : Int
  nextMovementId : Int
  nextCategoryId : Int
deriving DecidableEq, Repr

/-- `reason TEXT CHECK (reason IN ('venta','perdida','ingreso','devolucion'))`. -/
def movementReasonAllowed (reason : String) : Bool :=
  reason == "venta" || reason == "perdida" || reason == "ingreso" ||
    reason == "devolucion"

/-- SQL errors surfaced by `database.executeSql` in the modelled paths:
violation of a `CHECK` or `UNIQUE` constraint. -/
inductive SqlErr where
  | movementCheckViolation
  | categoryUniqueViolation
deriving DecidableEq, Repr

/-- The SQL statements issued inside `executeTransaction` calls of the
modelled operations. -/
inductive SqlOp where
  | insertMovement (productId : Int) (type : MType) (quantity : Int)
      (previousStock newStock : Int) (reason userId : String)
  | updateProductStock (newStock : Int) (productId : Int)
  | deleteMovementsOfProduct (productId : Int)
  | deleteProductRow (id : Int)
  | deleteAllMovements
  | deleteAllProducts
  | deleteAllCategories
deriving DecidableEq, Repr

/-- `database.executeSql` on one statement.  `now` models
`CURRENT_TIMESTAMP`.  The `movements` INSERT enforces the table's `CHECK`
constraints (the `type` check always holds for `MType`); the `products`
writes have no constraints to enforce. -/
def applySql (now : String) : SqlOp → DBState → Except SqlErr DBState
  | .insertMovement pid ty q prev new reason userId, s =>
    if q ≤ 0 then .error .movementCheckViolation
    else if movementReasonAllowed reason then
      .ok { s with
        movements := s.movements ++
          [⟨s.nextMovementId, pid, ty, q, prev, new, reason, userId, now⟩],
        nextMovementId := s.nextMovementId + 1 }
    else .error .movementCheckViolation
  | .updateProductStock newStock pid, s =>
    .ok { s with
      products := s.products.map fun p =>
        if p.id = pid then { p with stock := newStock, updatedAt := now }
        else p }
  | .deleteMovementsOfProduct pid, s =>
    .ok { s with movements := s.movements.filter fun m => !(m.productId == pid) }
  | .deleteProductRow pid, s =>
    .ok { s with products := s.products.filter fun p => !(p.id == pid) }
  | .deleteAllMovements, s => .ok { s with movements := [] }
  | .deleteAllProducts, s => .ok { s with products := [] }
  | .deleteAllCategories, s => .ok { s with categories := [] }

/-- `executeTransaction`: `BEGIN`; run the statements in order; `COMMIT`.
On any failure the source issues `ROLLBACK` and rethrows, so the caller's
store is left at the pre-transaction state — here, an `error` result. -/
def executeTransaction (now : String) (ops : List SqlOp) (s : DBState) :
    Except SqlErr DBState :=
  match ops with
  | [] => .ok s
  | op :: rest =>
    match applySql now op s with
    | .ok s' => executeTransaction now rest s'
    | .error e => .error e

/-- Errors thrown by the modelled `DatabaseService` operations (each
constructor corresponds to one `throw new Error(...)` site). -/
inductive DBError where
  | invalidProductId
  | invalidQuantity
  | reasonRequired
  | userRequired
  | productNotFound (id : Int)
  | insufficientStock (current requested : Int)
  | invalidId
  | conflictSku (sku : String)
  | conflictBarcode (barcode : String)
  | categoryNameRequired
  | categoryCodeRequired
  | sqlError (e : SqlErr)
deriving DecidableEq, Repr

/-- `SELECT * FROM products WHERE id = ?` (first row), the store read
behind `getProductById`. -/
def findProductById (s : DBState) (id : Int) : Option Product :=
  s.products.find? fun p => p.id == id

/-- `SELECT * FROM products WHERE sku = ?` (first row), the store read
behind `getProductBySKU`. -/
def findProductBySku (s : DBState) (sku : String) : Option Product :=
  s.products.find? fun p => p.sku == sku

/-- `SELECT * FROM products WHERE barcode = ?` (first row), the store read
behind `getProductByBarcode`. -/
def findProductByBarcode (s : DBState) (barcode : String) : Option Product :=
  s.products.find? fun p => p.barcode == barcode

/-! ## DatabaseService: operations -/

/-- JS `x || d` for the string fields of `addProduct`/`updateProduct`
(empty string is falsy). -/
def strOr (s d : String) : String := if s = "" then d else s

/-- Caller-supplied argument of `addMovement` (`Omit<Movement,'id'>`).
The TS `type` field is the union `'entrada'|'salida'|'ajuste'`, so the
source's membership validation always passes here. -/
structure MovementInput where
  productId : Int
  type : MType
  quantity : Int
  reason : String
  userId : String
deriving DecidableEq, Repr

/-- The `switch (movement.type)` of `addMovement` computing the new stock:
inflow adds, outflow subtracts, adjustment takes `quantity` as the absolute
target value. -/
def movementNewStock (ty : MType) (previousStock quantity : Int) : Int :=
  match ty with
  | .entrada => previousStock + quantity
  | .salida => previousStock - quantity
  | .ajuste => quantity

/-- `addMovement` of `DatabaseService` (lines 1243–1330 of the source):
validate the input, read the product's current stock, reject an outflow
exceeding it, compute `newStock` by type, then — in one transaction —
insert the movement row and update the product's `stock`.  The returned id
is `last_insert_rowid()`, i.e. the id the INSERT assigned.  `now` models
`CURRENT_TIMESTAMP`. -/
def addMovement (now : String) (m : MovementInput) (s : DBState) :
    Except DBError (DBState × Int) :=
  if m.productId ≤ 0 then .error .invalidProductId
  else if m.quantity ≤ 0 then .error .invalidQuantity
  else if strTrim m.reason = "" then .error .reasonRequired
  else if strTrim m.userId = "" then .error .userRequired
  else
    match findProductById s m.productId with
    | none => .error (.productNotFound m.productId)
    | some product =>
      if m.type = .salida ∧ product.stock < m.quantity then
        .error (.insufficientStock product.stock m.quantity)
      else
        let previousStock := product.stock
        let newStock := movementNewStock m.type previousStock m.quantity
        let movementId := s.nextMovementId
        match executeTransaction now
            [.insertMovement m.productId m.type m.quantity previousStock
               newStock (strTrim m.reason) (strTrim m.userId),
             .updateProductStock newStock m.productId] s with
        | .ok s' => .ok (s', movementId)
        | .error e => .error (.sqlError e)

/-- The store state after an `addMovement` call, successful or not: every
`throw` in the source happens either before any SQL write or after the
transaction has rolled back, so a failed call leaves the store as it was. -/
def addMovementState (now : String) (m : MovementInput) (s : DBState) :
    DBState :=
  match addMovement now m s with
  | .ok (s', _) => s'
  | .error _ => s

/-- Caller-supplied argument of `addProduct` (`Omit<Product,'id'>`).
`createdAt`/`updatedAt` may be absent (`""`, falsy), in which case the
source stamps `new Date().toISOString()`. -/
structure ProductInput where
  name : String
  sku : String
  barcode : String
  category : String
  stock : Int
  minStock : Int
  price : Int
  description : String
  brand : String
  weight : Int
  length : Int
  width : Int
  height : Int
  status : String
  createdAt : String
  updatedAt : String
deriving DecidableEq, Repr

/-- `addProduct` of `DatabaseService` (lines 954–994): a single INSERT of
the supplied fields.  There is no sku/barcode lookup before the INSERT and
the `products` table has no `UNIQUE` constraint, so the INSERT always
succeeds — duplicates included.  Returns `result.insertId`. -/
def addProduct (now : String) (p : ProductInput) (s : DBState) :
    Except DBError (DBState × Int) :=
  let row : Product :=
    { id := s.nextProductId
      name := p.name
      sku := p.sku
      barcode := p.barcode
      category := p.category
      stock := p.stock
      minStock := p.minStock
      price := p.price
      description := p.description
      brand := p.brand
      weight := p.weight
      length := p.length
      width := p.width
      height := p.height
      status := strOr p.status "active"
      createdAt := strOr p.createdAt now
      updatedAt := strOr p.updatedAt now }
  .ok ({ s with products := s.products ++ [row],
                nextProductId := s.nextProductId + 1 },
       s.nextProductId)

/-- `Partial<Product>` as passed to `updateProduct`: absent fields are
`none`. -/
structure ProductPatch where
  name : Option String := none
  sku : Option String := none
  barcode : Option String := none
  category : Option String := none
  stock : Option Int := none
  minStock : Option Int := none
  price : Option Int := none
  description : Option String := none
  brand : Option String := none
  weight : Option Int := none
  length : Option Int := none
  width : Option Int := none
  height : Option Int := none
  status : Option String := none
deriving DecidableEq, Repr

/-- The sku-uniqueness guard of `updateProduct`:
`if (product.sku && product.sku !== existingProduct.sku)` then reject when
`getProductBySKU` finds a row with a different id. -/
def updateSkuConflict (s : DBState) (id : Int) (existingProduct : Product)
    (patch : ProductPatch) : Bool :=
  match patch.sku with
  | some sk =>
    if sk ≠ "" ∧ sk ≠ existingProduct.sku then
      match findProductBySku s sk with
      | some q => q.id ≠ id
      | none => false
    else false
  | none => false

/-- The barcode-uniqueness guard of `updateProduct`, analogous. -/
def updateBarcodeConflict (s : DBState) (id : Int) (existingProduct : Product)
    (patch : ProductPatch) : Bool :=
  match patch.barcode with
  | some bc =>
    if bc ≠ "" ∧ bc ≠ existingProduct.barcode then
      match findProductByBarcode s bc with
      | some q => q.id ≠ id
      | none => false
    else false
  | none => false

/-- The category side effect inside `updateProduct`: when the patch carries
a (non-empty) category different from the current one and
`getCategoryIdByName` finds no active category of that name,
`createCategory({name, code})` inserts one — requiring a non-blank name and
code, and subject to the `UNIQUE` constraints on `categories.name` /
`categories.code` (a violation aborts the whole update). -/
def ensureCategoryFor (s : DBState) (existingProduct : Product)
    (patch : ProductPatch) : Except DBError DBState :=
  match patch.category with
  | some c =>
    if c ≠ "" ∧ c ≠ existingProduct.category then
      match s.categories.find? (fun cat => cat.name == c && cat.isActive) with
      | some _ => .ok s
      | none =>
        if strTrim c = "" then .error .categoryNameRequired
        else if strTrim (getCategoryCode c) = "" then
          .error .categoryCodeRequired
        else if s.categories.any
            (fun cat => cat.name == strTrim c ||
              cat.code == strTrim (getCategoryCode c)) then
          .error (.sqlError .categoryUniqueViolation)
        else .ok { s with
          categories := s.categories ++
            [⟨s.nextCategoryId, strTrim c, strTrim (getCategoryCode c), "",
              "#3498db", "cube-outline", true⟩],
          nextCategoryId := s.nextCategoryId + 1 }
    else .ok s
  | none => .ok s

/-- The merged row written by `updateProduct`'s UPDATE:
`updateData = {...existingProduct, ...product}`, each column passed through
the source's `||`-defaults, `updatedAt` freshly stamped. -/
def mergedProduct (now : String) (existingProduct : Product)
    (patch : ProductPatch) : Product :=
  { existingProduct with
    name := strOr (patch.name.getD existingProduct.name) ""
    sku := strOr (patch.sku.getD existingProduct.sku) ""
    barcode := strOr (patch.barcode.getD existingProduct.barcode) ""
    category := strOr (patch.category.getD existingProduct.category) ""
    stock := patch.stock.getD existingProduct.stock
    minStock := patch.minStock.getD existingProduct.minStock
    price := patch.price.getD existingProduct.price
    description := patch.description.getD existingProduct.description
    brand := patch.brand.getD existingProduct.brand
    weight := patch.weight.getD existingProduct.weight
    length := patch.length.getD existingProduct.length
    width := patch.width.getD existingProduct.width
    height := patch.height.getD existingProduct.height
    status := strOr (patch.status.getD existingProduct.status) "active"
    updatedAt := now }

/-- `updateProduct` of `DatabaseService` (lines 998–1104): check the id,
load the current row, run the sku/barcode uniqueness guards, ensure the
category, merge `{...existingProduct, ...product}` and UPDATE every column
of the row, stamping `updatedAt`. -/
def updateProduct (now : String) (id : Int) (patch : ProductPatch)
    (s : DBState) : Except DBError DBState :=
  if id ≤ 0 then .error .invalidId
  else
    match findProductById s id with
    | none => .error (.productNotFound id)
    | some existingProduct =>
      if updateSkuConflict s id existingProduct patch then
        .error (.conflictSku (patch.sku.getD ""))
      else if updateBarcodeConflict s id existingProduct patch then
        .error (.conflictBarcode (patch.barcode.getD ""))
      else
        match ensureCategoryFor s existingProduct patch with
        | .error e => .error e
        | .ok s1 =>
          .ok { s1 with
            products := s1.products.map fun p =>
              if p.id = id then mergedProduct now existingProduct patch
              else p }

/-- `deleteProduct` of `DatabaseService` (lines 1106–1141): check the id,
require the row to exist, then — in one transaction — delete the product's
movement rows and the product row itself. -/
def deleteProduct (now : String) (id : Int) (s : DBState) :
    Except DBError DBState :=
  if id ≤ 0 then .error .invalidId
  else
    match findProductById s id with
    | none => .error (.productNotFound id)
    | some _ =>
      match executeTransaction now
          [.deleteMovementsOfProduct id, .deleteProductRow id] s with
      | .ok s' => .ok s'
      | .error e => .error (.sqlError e)

/-- The DELETE transaction at the head of `clearAllData` (lines 1780–1806).
The demo-data re-seed the source runs afterwards (`initializeDefaultData`)
re-inserts catalog rows only; it never inserts movement rows. -/
def clearAllDataTx (now : String) (s : DBState) : Except SqlErr DBState :=
  executeTransaction now
    [.deleteAllMovements, .deleteAllProducts, .deleteAllCategories] s

/-! ## Cache coordinator: `getCache`/`setCache` and `getProducts`

`getCache` (lines 424–449) is a synchronous `Map` lookup with a TTL check
(`Date.now() - entry.timestamp > entry.ttl` evicts); `getProducts`
(lines 780–792) checks the cache, and on a miss awaits
`getProductsFromDB()` and stores the result with `setCache`.  The spec's
§5 execution model is single-threaded cooperative interleaving with a
suspension point at every awaited store call, so a run of concurrent
`getProducts()` callers is a sequence of atomic steps: the cache check
(which on a miss issues the DB query) and the post-`await` resumption
(which stores and returns).  `CacheRun.step`/`CacheRun.run` below make
that interleaving explicit for two callers. -/

/-- One `CacheEntry<T>` of the in-memory cache map. -/
structure CacheEntry (α : Type) where
  data : α
  timestamp : Nat
  ttl : Nat
deriving DecidableEq, Repr

/-- `DEFAULT_CACHE_TTL = 5 * 60 * 1000`. -/
def DEFAULT_CACHE_TTL : Nat := 5 * 60 * 1000

/-- `getCache` on one key: miss when absent or expired. -/
def getCacheEntry (now : Nat) (entry : Option (CacheEntry (List Product))) :
    Option (List Product) :=
  match entry with
  | none => none
  | some e => if e.ttl < now - e.timestamp then none else some e.data

/-- Where one `getProducts()` caller is between suspension points. -/
inductive CallerPhase where
  | start
  | awaitingDb
  | done (result : List Product)
deriving DecidableEq, Repr

/-- Two `getProducts()` callers racing on the `'all_products'` key:
the store's product table, the cache slot for the key, the wall clock, a
count of `getProductsFromDB()` executions, and each caller's phase. -/
structure CacheRun where
  db : List Product
  entry : Option (CacheEntry (List Product))
  now : Nat
  loaderRuns : Nat
  caller1 : CallerPhase
  caller2 : CallerPhase
deriving DecidableEq, Repr

/-- Advance one caller by one atomic segment of `getProducts`:
from `start`, check the cache — a hit completes immediately, a miss issues
the DB query (counted) and suspends; from `awaitingDb`, take the query
result, `setCache` it, and complete. -/
def cacheStep (r : CacheRun) (who : Bool) : CacheRun :=
  let phase := if who then r.caller1 else r.caller2
  let put := fun (r' : CacheRun) (ph : CallerPhase) =>
    if who then { r' with caller1 := ph } else { r' with caller2 := ph }
  match phase with
  | .start =>
    match getCacheEntry r.now r.entry with
    | some v => put r (.done v)
    | none => put { r with loaderRuns := r.loaderRuns + 1 } .awaitingDb
  | .awaitingDb =>
    let products := r.db
    put { r with entry := some ⟨products, r.now, DEFAULT_CACHE_TTL⟩ }
      (.done products)
  | .done _ => r

/-- Run a schedule (`true` = caller 1's turn, `false` = caller 2's). -/
def cacheRun (r : CacheRun) (schedule : List Bool) : CacheRun :=
  schedule.foldl cacheStep r

/-- An initial state with a cold (`none`) cache and both callers about to
call `getProducts()`. -/
def coldCacheRun (db : List Product) : CacheRun :=
  { db := db, entry := none, now := 1000000, loaderRuns := 0,
    caller1 := .start, caller2 := .start }

/-- A concrete product row for concrete runs. -/
def sampleProduct : Product :=
  { id := 1, name := "Widget", sku := "ELE-SAM-001", barcode := "7891000000007",
    category := "Electrónicos", stock := 10, minStock := 2, price := 50,
    description := "", brand := "Samsung", weight := 0, length := 0,
    width := 0, height := 0, status := "active",
    createdAt := "2026-01-01T00:00:00.000Z",
    updatedAt := "2026-01-01T00:00:00.000Z" }

/-! ## Spec-side models for the refinement claims

`generateSkuClaimModel` renders the spec's description of the SKU
generator word for word, to be compared with the source's
`generateCustomSKU`; `generateSkuAmendedModel` renders the amended
description.  `ean13ChecksumSpec` renders the spec's checksum formula
`(10 − (Σ dᵢ·wᵢ mod 10)) mod 10`. -/

/-- BRD as the spec's words have it: "`brand` uppercased, stripped of
non-alphanumeric characters, truncated to its first 3 characters and
right-padded with `X` if shorter than 3; a fixed generic code when brand
is empty". -/
def claimBrandCode (brand : String) : String :=
  if brand = "" then "GEN"
  else padEnd (String.mk (((strToUpper brand).data.filter isUpperAZDigit).take 3)) 3 'X'

/-- NNN's candidate sequence numbers as the spec's words have it: the
sequence numbers of the `existingSkus` sharing the `CAT-BRD-` prefix
(the digits after that prefix). -/
def claimSkuSeqNums (skuPfx : String) (existingSKUs : List String) :
    List Int :=
  (existingSKUs.filter (fun sku => strStartsWith sku skuPfx)).filterMap
    (fun sku => jsParseInt (strDrop sku skuPfx.length))

/-- The SKU generator exactly as claim C8 words it. -/
def generateSkuClaimModel (category brand : String)
    (existingSKUs : List String) : String :=
  let cat := getCategoryCode category
  let brd := claimBrandCode brand
  let skuPfx := cat ++ "-" ++ brd ++ "-"
  let nums := claimSkuSeqNums skuPfx existingSKUs
  let nnn : Int :=
    match nums with
    | [] => 1
    | n :: rest => rest.foldl max n + 1
  cat ++ "-" ++ brd ++ "-" ++ padStart (intDecRepr nnn) 3 '0'

/-- BRD as the source actually derives it (the amended wording of C8):
`GEN` when the brand trims to empty; the trimmed upper-cased brand itself,
right-padded with `X`, when it has at most 3 characters (non-alphanumerics
kept); otherwise the first 3 of its letters `A`–`Z` when at least 3 remain
after stripping non-letters; otherwise its first 3 alphanumerics padded
with `X`. -/
def amendedBrandCode (brand : String) : String :=
  let t := strTrim brand
  if t = "" then "GEN"
  else if (strToUpper t).length ≤ 3 then padEnd (strToUpper t) 3 'X'
  else if 3 ≤ ((strToUpper t).data.filter isUpperAZ).length then
    String.mk (((strToUpper t).data.filter isUpperAZ).take 3)
  else padEnd (String.mk (((strToUpper t).data.filter isUpperAZDigit).take 3)) 3 'X'

/-- NNN as the source actually computes it (the amended wording of C8):
1 + the maximum of `parseInt` applied to the third dash-separated field of
each existing SKU sharing the `CAT-BRD-` prefix, or 1 when none parse. -/
def amendedSkuSeq (skuPfx : String) (existingSKUs : List String) : Int :=
  let nums :=
    (existingSKUs.filter (fun sku => strStartsWith sku skuPfx)).filterMap
      (fun sku => jsParseInt ((splitOnDash sku).getD 2 ""))
  match nums with
  | [] => 1
  | n :: rest => rest.foldl max n + 1

/-- The SKU generator as amended claim C8 words it. -/
def generateSkuAmendedModel (category brand : String)
    (existingSKUs : List String) : String :=
  let cat := getCategoryCode category
  let brd := amendedBrandCode brand
  let skuPfx := cat ++ "-" ++ brd ++ "-"
  cat ++ "-" ++ brd ++ "-" ++
    padStart (intDecRepr (amendedSkuSeq skuPfx existingSKUs)) 3 '0'

/-- The spec's EAN-13 checksum formula `(10 − (Σ dᵢ·wᵢ mod 10)) mod 10`
over a digit-value list, `wᵢ = 1` for even `i` and `3` for odd `i`. -/
def ean13ChecksumSpec (ds : List Nat) : Nat :=
  (10 - ((ds.enum.map fun p => p.2 * (if p.1 % 2 = 0 then 1 else 3)).sum % 10))
    % 10

/-! ## Concrete fixtures for counterexamples and witnesses -/

/-- The store with no rows yet. -/
def emptyDB : DBState :=
  { products := [], movements := [], categories := [],
    nextProductId := 1, nextMovementId := 1, nextCategoryId := 1 }

/-- The store holding just `sampleProduct` (stock 10). -/
def demoDB : DBState :=
  { products := [sampleProduct], movements := [], categories := [],
    nextProductId := 2, nextMovementId := 1, nextCategoryId := 1 }

/-- A well-formed inflow of 5 against `sampleProduct`. -/
def demoInflow : MovementInput :=
  { productId := 1, type := .entrada, quantity := 5, reason := "ingreso",
    userId := "u1" }

/-- An outflow of 15 against `sampleProduct` (stock 10), the spec's
insufficient-stock scenario. -/
def demoOutflow15 : MovementInput :=
  { productId := 1, type := .salida, quantity := 15, reason := "venta",
    userId := "u1" }

/-- `demoDB` after recording `demoInflow`: one committed movement row. -/
def demoMovedDB : DBState := addMovementState "T1" demoInflow demoDB

/-- A product creation payload whose sku and barcode duplicate
`sampleProduct`'s. -/
def dupInput : ProductInput :=
  { name := "Widget", sku := "ELE-SAM-001", barcode := "7891000000007",
    category := "Electrónicos", stock := 10, minStock := 2, price := 50,
    description := "", brand := "Samsung", weight := 0, length := 0,
    width := 0, height := 0, status := "active", createdAt := "",
    updatedAt := "" }

/-- The store state after an `addProduct` call (the INSERT never fails). -/
def addProductState (now : String) (p : ProductInput) (s : DBState) :
    DBState :=
  match addProduct now p s with
  | .ok (s', _) => s'
  | .error _ => s

/-- A patch that only sets `stock` to 5. -/
def stockPatch : ProductPatch := { stock := some 5 }

/-- A second product with its own sku/barcode. -/
def otherProduct : Product :=
  { id := 2, name := "Gadget", sku := "ELE-APP-001", barcode := "7891000000014",
    category := "Electrónicos", stock := 3, minStock := 1, price := 20,
    description := "", brand := "Apple", weight := 0, length := 0,
    width := 0, height := 0, status := "active",
    createdAt := "2026-01-01T00:00:00.000Z",
    updatedAt := "2026-01-01T00:00:00.000Z" }

/-- A store with two products. -/
def demoTwoDB : DBState :=
  { products := [sampleProduct, otherProduct], movements := [],
    categories := [], nextProductId := 3, nextMovementId := 1,
    nextCategoryId := 1 }

/-- A patch that renames `otherProduct`'s sku onto `sampleProduct`'s. -/
def skuPatch : ProductPatch := { sku := some "ELE-SAM-001" }

/-- The store state after an `updateProduct` call (unchanged on error). -/
def updateProductState (now : String) (id : Int) (patch : ProductPatch)
    (s : DBState) : DBState :=
  match updateProduct now id patch s with
  | .ok s' => s'
  | .error _ => s

/-- The store state after a `deleteProduct` call (unchanged on error). -/
def deleteProductState (now : String) (id : Int) (s : DBState) : DBState :=
  match deleteProduct now id s with
  | .ok s' => s'
  | .error _ => s

/-! ## Helper lemmas -/

/-- `find?` by id commutes with a map that preserves every row's id. -/
theorem find?_id_map (l : List Product) (i : Int) (f : Product → Product)
    (hf : ∀ p, (f p).id = p.id) :
    (l.map f).find? (fun p => p.id == i) =
      (l.find? (fun p => p.id == i)).map f := by
  induction l with
  | nil => rfl
  | cons a rest ih =>
    simp only [List.map_cons, List.find?]
    rw [show ((f a).id == i) = (a.id == i) by rw [hf]]
    cases hb : (a.id == i) with
    | true => simp
    | false => simpa using ih

/-- Success shape of `addMovement`: the product was found and did not fail
the outflow guard, and the whole transaction committed — the movement row
is appended with the stock value read at the start, and the product's
`stock` column is set to the computed `newStock`. -/
theorem addMovement_ok_elim {now : String} {m : MovementInput}
    {s s' : DBState} {mid : Int}
    (h : addMovement now m s = .ok (s', mid)) :
    ∃ product, findProductById s m.productId = some product ∧
      ¬(m.type = .salida ∧ product.stock < m.quantity) ∧
      mid = s.nextMovementId ∧
      s'.movements = s.movements ++
        [⟨s.nextMovementId, m.productId, m.type, m.quantity, product.stock,
          movementNewStock m.type product.stock m.quantity,
          strTrim m.reason, strTrim m.userId, now⟩] ∧
      s'.products = s.products.map (fun p =>
        if p.id = m.productId then
          { p with stock := movementNewStock m.type product.stock m.quantity,
                   updatedAt := now }
        else p) ∧
      s'.categories = s.categories ∧
      s'.nextMovementId = s.nextMovementId + 1 ∧
      s'.nextProductId = s.nextProductId := by
  unfold addMovement at h
  split at h; · exact absurd h (by simp)
  split at h; · exact absurd h (by simp)
  split at h; · exact absurd h (by simp)
  split at h; · exact absurd h (by simp)
  split at h
  · exact absurd h (by simp)
  · next product hfind =>
    split at h
    · exact absurd h (by simp)
    · next hguard =>
      refine ⟨product, hfind, hguard, ?_⟩
      simp only [executeTransaction, applySql] at h
      split at h
      · next s1 heq =>
        simp only [Except.ok.injEq, Prod.mk.injEq] at h
        obtain ⟨h1, h2⟩ := h
        split at heq
        · next s2 heq2 =>
          simp only [Except.ok.injEq] at heq
          split at heq2
          · exact absurd heq2 (by simp)
          · split at heq2
            · simp only [Except.ok.injEq] at heq2
              subst heq2
              subst heq
              subst h1
              exact ⟨h2.symm, by simp, by simp, by simp, by simp, by simp⟩
            · exact absurd heq2 (by simp)
        · exact absurd heq (by simp)
      · exact absurd h (by simp)

/-- `ensureCategoryFor` only ever touches the `categories` table. -/
theorem ensureCategoryFor_ok_frame {s : DBState} {p : Product}
    {patch : ProductPatch} {s1 : DBState}
    (h : ensureCategoryFor s p patch = .ok s1) :
    s1.products = s.products ∧ s1.movements = s.movements := by
  unfold ensureCategoryFor at h
  split at h
  · split at h
    · split at h
      · simp only [Except.ok.injEq] at h; subst h; exact ⟨rfl, rfl⟩
      · split at h
        · exact absurd h (by simp)
        · split at h
          · exact absurd h (by simp)
          · split at h
            · exact absurd h (by simp)
            · simp only [Except.ok.injEq] at h; subst h; exact ⟨rfl, rfl⟩
    · simp only [Except.ok.injEq] at h; subst h; exact ⟨rfl, rfl⟩
  · simp only [Except.ok.injEq] at h; subst h; exact ⟨rfl, rfl⟩

/-- Success shape of `updateProduct`: the row was found, the guards
passed, the category step succeeded, and the UPDATE replaced the row by
the merged record. -/
theorem updateProduct_ok_elim {now : String} {i : Int}
    {patch : ProductPatch} {s s' : DBState}
    (h : updateProduct now i patch s = .ok s') :
    ∃ p s1, findProductById s i = some p ∧
      ensureCategoryFor s p patch = .ok s1 ∧
      s1.products = s.products ∧ s1.movements = s.movements ∧
      s' = { s1 with
        products := s1.products.map fun q =>
          if q.id = i then mergedProduct now p patch else q } := by
  unfold updateProduct at h
  split at h; · exact absurd h (by simp)
  split at h
  · exact absurd h (by simp)
  · next p hfind =>
    split at h; · exact absurd h (by simp)
    split at h; · exact absurd h (by simp)
    split at h
    · exact absurd h (by simp)
    · next s1 hcat =>
      simp only [Except.ok.injEq] at h
      obtain ⟨hp, hm⟩ := ensureCategoryFor_ok_frame hcat
      exact ⟨p, s1, hfind, hcat, hp, hm, h.symm⟩

/-! ## Claim theorems -/

/-- C1.  After every successful `addMovement`, the movement row and the
product's stock update have committed together in one transaction: the run
appended exactly one movement row (with the returned id), and the owning
product's `stock` column equals that row's `newStock`; a failed call
commits neither write and leaves the store unchanged. -/
theorem addMovement_transaction_consistency
    (now : String) (m : MovementInput) (s : DBState) :
    (∀ s' mid, addMovement now m s = .ok (s', mid) →
      ∃ row : MovementRow,
        s'.movements = s.movements ++ [row] ∧ row.id = mid ∧
        row.productId = m.productId ∧
        ∃ p, findProductById s' m.productId = some p ∧
          p.stock = row.newStock) ∧
    (∀ e, addMovement now m s = .error e →
      addMovementState now m s = s) := by
  constructor
  · intro s' mid h
    obtain ⟨product, hfind, _, hmid, hmov, hprod, _, _, _⟩ :=
      addMovement_ok_elim h
    refine ⟨_, hmov, hmid.symm, rfl, ?_⟩
    have hpid : product.id = m.productId := by
      have := List.find?_some hfind
      simpa using this
    unfold findProductById at hfind ⊢
    rw [hprod, find?_id_map _ _ _ (fun p => by by_cases hp : p.id = m.productId <;> simp [hp]),
      hfind]
    simp [hpid]
  · intro e h
    unfold addMovementState
    rw [h]

/-- C1 witness: the inflow of 5 on the demo store commits, and the
appended row's `newStock` is the product's stored stock. -/
theorem addMovement_transaction_consistency_witness :
    ∃ row : MovementRow,
      demoMovedDB.movements = demoDB.movements ++ [row] ∧ row.id = 1 ∧
      row.productId = demoInflow.productId ∧
      ∃ p, findProductById demoMovedDB demoInflow.productId = some p ∧
        p.stock = row.newStock :=
  (addMovement_transaction_consistency "T1" demoInflow demoDB).1
    demoMovedDB 1 (by decide)

/-- C2.  Every movement row created by a successful `addMovement` obeys the
per-type stock formula: inflow adds the quantity, outflow subtracts it, and
adjustment stores the quantity as the absolute target value. -/
theorem addMovement_stock_formula (now : String) (m : MovementInput)
    (s s' : DBState) (mid : Int)
    (h : addMovement now m s = .ok (s', mid)) :
    ∃ row : MovementRow,
      s'.movements = s.movements ++ [row] ∧
      row.type = m.type ∧ row.quantity = m.quantity ∧
      (row.type = .entrada → row.newStock = row.previousStock + row.quantity) ∧
      (row.type = .salida → row.newStock = row.previousStock - row.quantity) ∧
      (row.type = .ajuste → row.newStock = row.quantity) := by
  obtain ⟨product, _, _, _, hmov, _⟩ := addMovement_ok_elim h
  refine ⟨_, hmov, rfl, rfl, ?_, ?_, ?_⟩ <;>
    intro ht <;> simp only at ht <;> simp [movementNewStock, ht]

/-- C2 witness: the demo inflow's row satisfies the formula. -/
theorem addMovement_stock_formula_witness :
    ∃ row : MovementRow,
      demoMovedDB.movements = demoDB.movements ++ [row] ∧
      row.type = demoInflow.type ∧ row.quantity = demoInflow.quantity ∧
      (row.type = .entrada → row.newStock = row.previousStock + row.quantity) ∧
      (row.type = .salida → row.newStock = row.previousStock - row.quantity) ∧
      (row.type = .ajuste → row.newStock = row.quantity) :=
  addMovement_stock_formula "T1" demoInflow demoDB demoMovedDB 1 (by decide)

/-- C3.  An outflow whose quantity exceeds the product's current
(nonnegative) stock fails with the insufficient-stock error and changes
nothing: no movement row is created and the stock is untouched. -/
theorem addMovement_insufficient_stock (now : String) (m : MovementInput)
    (s : DBState) (product : Product)
    (hpid : 0 < m.productId)
    (hr : strTrim m.reason ≠ "") (hu : strTrim m.userId ≠ "")
    (hfind : findProductById s m.productId = some product)
    (hstock : 0 ≤ product.stock)
    (hty : m.type = .salida) (hover : product.stock < m.quantity) :
    addMovement now m s =
      .error (.insufficientStock product.stock m.quantity) ∧
    addMovementState now m s = s := by
  have hq : ¬m.quantity ≤ 0 := by omega
  have h : addMovement now m s =
      .error (.insufficientStock product.stock m.quantity) := by
    unfold addMovement
    rw [if_neg (by omega : ¬m.productId ≤ 0), if_neg hq, if_neg hr,
      if_neg hu, hfind]
    simp [hty, hover]
  exact ⟨h, by unfold addMovementState; rw [h]⟩

/-- C3 witness: the spec scenario — stock 10, outflow of 15 — fails with
the insufficient-stock error and leaves the demo store unchanged. -/
theorem addMovement_insufficient_stock_witness :
    addMovement "T1" demoOutflow15 demoDB =
      .error (.insufficientStock 10 15) ∧
    addMovementState "T1" demoOutflow15 demoDB = demoDB :=
  addMovement_insufficient_stock "T1" demoOutflow15 demoDB sampleProduct
    (by decide) (by decide) (by decide) (by decide) (by decide) (by decide)
    (by decide)

/-- C4 counterexample.  `addProduct` accepts a payload whose sku and
barcode duplicate an existing product's: the call succeeds (no
ConflictError), and the reachable state holds two distinct products
sharing a sku and a barcode — the claimed uniqueness invariant and the
claimed pre-persist check both fail. -/
theorem addProduct_duplicate_counterexample :
    (addProduct "T1" dupInput demoDB).isOk = true ∧
    (addProductState "T1" dupInput demoDB).products.map Product.sku =
      ["ELE-SAM-001", "ELE-SAM-001"] ∧
    (addProductState "T1" dupInput demoDB).products.map Product.barcode =
      ["7891000000007", "7891000000007"] ∧
    (addProductState "T1" dupInput demoDB).products.map Product.id =
      [1, 2] := by
  decide

/-- C4 (amended).  `addProduct` performs no sku/barcode uniqueness check
and the `products` table has no UNIQUE constraint on those columns, so the
INSERT always succeeds, duplicates included; only `updateProduct` checks
uniqueness — when the patch carries a (non-empty) changed sku already held
by a different product, it fails with a conflict error naming the sku. -/
theorem catalog_uniqueness_amended :
    (∀ now inp s, ∃ s',
      addProduct now inp s = .ok (s', s.nextProductId) ∧
      ∃ row : Product, s'.products = s.products ++ [row] ∧
        row.sku = inp.sku ∧ row.barcode = inp.barcode) ∧
    (∀ now i patch s p q sk,
      patch.sku = some sk → sk ≠ "" → 0 < i →
      findProductById s i = some p → p.sku ≠ sk →
      findProductBySku s sk = some q → q.id ≠ i →
      updateProduct now i patch s = .error (.conflictSku sk)) := by
  constructor
  · intro now inp s
    exact ⟨_, rfl, _, rfl, rfl, rfl⟩
  · intro now i patch s p q sk hsku hsk hi hfind hne hq hqid
    have hc : updateSkuConflict s i p patch = true := by
      unfold updateSkuConflict
      rw [hsku]
      simp [hsk, Ne.symm hne, hq, hqid]
    unfold updateProduct
    rw [if_neg (by omega : ¬i ≤ 0), hfind]
    simp [hc, hsku]

/-- C4 witness: inserting a duplicate of `sampleProduct` succeeds, while
an `updateProduct` that moves `sampleProduct`'s sku onto `otherProduct`
is rejected with a conflict naming the sku. -/
theorem catalog_uniqueness_amended_witness :
    (∃ s', addProduct "T1" dupInput demoDB = .ok (s', 2) ∧
      ∃ row : Product, s'.products = demoDB.products ++ [row] ∧
        row.sku = dupInput.sku ∧ row.barcode = dupInput.barcode) ∧
    updateProduct "T4" 2 skuPatch demoTwoDB =
      .error (.conflictSku "ELE-SAM-001") :=
  ⟨catalog_uniqueness_amended.1 "T1" dupInput demoDB,
   catalog_uniqueness_amended.2 "T4" 2 skuPatch demoTwoDB otherProduct
     sampleProduct "ELE-SAM-001" rfl (by decide) (by decide) (by decide)
     (by decide) (by decide) (by decide)⟩

/-- C5 counterexample.  `updateProduct` does change `stock` when the
partial carries one: on the demo store (stock 10), a patch with
`stock := 5` succeeds and the stored stock becomes 5. -/
theorem updateProduct_stock_counterexample :
    demoDB.products.map Product.stock = [10] ∧
    (updateProduct "T2" 1 stockPatch demoDB).map
      (fun st => st.products.map Product.stock) = .ok [5] := by
  decide

/-- C5 (amended).  `updateProduct` writes the merged stock column: after a
successful `update(id, partial)` the product's stock equals the partial's
stock when one is supplied, and only when the partial omits `stock` does
it equal its value before the call. -/
theorem updateProduct_stock_amended (now : String) (i : Int)
    (patch : ProductPatch) (s s' : DBState) (p : Product)
    (h : updateProduct now i patch s = .ok s')
    (hfind : findProductById s i = some p) :
    ∃ p', findProductById s' i = some p' ∧
      p'.stock = patch.stock.getD p.stock := by
  obtain ⟨p0, s1, hfind0, _, hprod, _, hs'⟩ := updateProduct_ok_elim h
  rw [hfind0] at hfind
  have hp0 : p = p0 := by
    have h' : p0 = p := by simpa using hfind
    exact h'.symm
  subst hp0
  have hf : s.products.find? (fun q => q.id == i) = some p := hfind0
  have hpid : p.id = i := by simpa using List.find?_some hf
  subst hs'
  refine ⟨mergedProduct now p patch, ?_, rfl⟩
  have hobj : findProductById
      { s1 with products := s1.products.map fun q =>
          if q.id = i then mergedProduct now p patch else q } i =
      (s1.products.map fun q =>
        if q.id = i then mergedProduct now p patch else q).find?
        (fun q => q.id == i) := rfl
  rw [hobj, hprod, find?_id_map _ _ _ (fun q => by
    by_cases hqi : q.id = i
    · simp [hqi, mergedProduct, hpid]
    · simp [hqi]), hf]
  simp [hpid]

/-- C5 witness: the stock-only patch on the demo store yields stock 5 (the
patch's value), instantiating the amended theorem. -/
theorem updateProduct_stock_amended_witness :
    ∃ p', findProductById (updateProductState "T2" 1 stockPatch demoDB) 1 =
        some p' ∧
      p'.stock = stockPatch.stock.getD sampleProduct.stock :=
  updateProduct_stock_amended "T2" 1 stockPatch demoDB
    (updateProductState "T2" 1 stockPatch demoDB) sampleProduct
    (by decide) (by decide)

/-- C6 counterexample.  A committed movement row does not survive
`deleteProduct`: the demo store holds one movement for product 1, and
deleting product 1 leaves the movement table empty. -/
theorem deleteProduct_removes_movements_counterexample :
    demoMovedDB.movements.length = 1 ∧
    (deleteProduct "T3" 1 demoMovedDB).map DBState.movements = .ok [] := by
  decide

/-- C6 (amended).  Movement rows are never updated, and `addMovement`
(appends exactly one row), `addProduct` and `updateProduct` leave all
previously committed movement rows present and unchanged; but
`deleteProduct` cascades — it deletes the deleted product's movement
rows — and `clearAllData`'s transaction deletes them all. -/
theorem movements_append_only_amended :
    (∀ now m s s' mid, addMovement now m s = .ok (s', mid) →
      ∃ row : MovementRow, s'.movements = s.movements ++ [row]) ∧
    (∀ now inp s s' pid, addProduct now inp s = .ok (s', pid) →
      s'.movements = s.movements) ∧
    (∀ now i patch s s', updateProduct now i patch s = .ok s' →
      s'.movements = s.movements) ∧
    (∀ now i s s', deleteProduct now i s = .ok s' →
      s'.movements = s.movements.filter fun mv => !(mv.productId == i)) ∧
    (∀ now s s', clearAllDataTx now s = .ok s' → s'.movements = []) := by
  refine ⟨?_, ?_, ?_, ?_, ?_⟩
  · intro now m s s' mid h
    obtain ⟨product, _, _, _, hmov, _⟩ := addMovement_ok_elim h
    exact ⟨_, hmov⟩
  · intro now inp s s' pid h
    unfold addProduct at h
    simp only [Except.ok.injEq, Prod.mk.injEq] at h
    rw [← h.1]
  · intro now i patch s s' h
    obtain ⟨p, s1, _, _, _, hmov, hs'⟩ := updateProduct_ok_elim h
    rw [hs']
    exact hmov
  · intro now i s s' h
    unfold deleteProduct at h
    split at h; · exact absurd h (by simp)
    split at h
    · exact absurd h (by simp)
    · simp only [executeTransaction, applySql, Except.ok.injEq] at h
      rw [← h]
  · intro now s s' h
    unfold clearAllDataTx at h
    simp only [executeTransaction, applySql, Except.ok.injEq] at h
    rw [← h]

/-- C6 witness: concrete instances — recording the demo inflow appends a
row, and deleting product 1 filters its rows out of the demo store. -/
theorem movements_append_only_amended_witness :
    (∃ row : MovementRow,
      demoMovedDB.movements = demoDB.movements ++ [row]) ∧
    (deleteProductState "T3" 1 demoMovedDB).movements =
      demoMovedDB.movements.filter fun mv => !(mv.productId == 1) :=
  ⟨movements_append_only_amended.1 "T1" demoInflow demoDB demoMovedDB 1
      (by decide),
   movements_append_only_amended.2.2.2.1 "T3" 1 demoMovedDB
      (deleteProductState "T3" 1 demoMovedDB) (by decide)⟩

/-- C7 counterexample.  Two concurrent `getProducts()` calls on a cold
`'all_products'` key, interleaved so that both run their cache check before
either load completes (schedule caller1, caller2, caller1, caller2),
execute the DB loader twice — not exactly once: `getCache` is a plain
synchronous map lookup with no in-flight-load tracking. -/
theorem getProducts_no_single_flight_counterexample :
    (cacheRun (coldCacheRun [sampleProduct]) [true, false, true, false]).loaderRuns
      = 2 ∧
    (2 ≠ 1) ∧
    (cacheRun (coldCacheRun [sampleProduct])
        [true, false, true, false]).caller1 = .done [sampleProduct] ∧
    (cacheRun (coldCacheRun [sampleProduct])
        [true, false, true, false]).caller2 = .done [sampleProduct] := by
  decide

/-- C7 (amended).  There is no single-flight coalescing: every caller
whose cache check misses issues its own DB load, so two concurrent calls
racing past the check before either load completes run the loader twice;
the loader runs once only when one call's store completes before the
other's cache check, which is then served from the cache. -/
theorem getProducts_duplicate_loads_amended :
    ((cacheRun (coldCacheRun [sampleProduct]) [true, false, true, false]).loaderRuns
      = 2 ∧
     (cacheRun (coldCacheRun [sampleProduct])
        [true, false, true, false]).caller2 = .done [sampleProduct]) ∧
    ((cacheRun (coldCacheRun [sampleProduct]) [true, true, false]).loaderRuns
      = 1 ∧
     (cacheRun (coldCacheRun [sampleProduct])
        [true, true, false]).caller2 = .done [sampleProduct]) := by
  decide

/-- A string has length 0 exactly when it is empty. -/
theorem strLengthEqZero (s : String) : s.length = 0 ↔ s = "" := by
  cases s with
  | mk l =>
    constructor
    · intro h
      have hl : l = [] := List.length_eq_zero.mp h
      rw [hl]
    · intro h
      rw [h]
      rfl

/-- The source's guard `if (matchingSKUs.length > 0)` is redundant: an
empty match list also yields sequence number 1 through the inner match. -/
theorem skuSeq_if_filterMap_eq (l : List String) (f : String → Option Int) :
    (if l.isEmpty then (1 : Int) else
      match l.filterMap f with
      | [] => 1
      | n :: rest => rest.foldl max n + 1) =
    (match l.filterMap f with
      | [] => 1
      | n :: rest => rest.foldl max n + 1) := by
  cases l <;> rfl

/-- The source's brand code agrees with the amended description. -/
theorem generateBrandCode_eq_amended (brand : String) :
    generateBrandCode brand = amendedBrandCode brand := by
  unfold generateBrandCode amendedBrandCode
  by_cases h : strTrim brand = ""
  · simp [h]
  · rw [if_neg (fun h0 => h ((strLengthEqZero (strTrim brand)).mp h0)),
      if_neg h]
    rfl

/-- C8 counterexample.  The claimed BRD rule (uppercase, strip
non-alphanumerics, truncate, pad) disagrees with the source: for brand
`"a-b"` (3 characters, so the source keeps it verbatim, dash included)
the source yields `ELE-A-B-001` while the claim's rule yields
`ELE-ABX-001`. -/
theorem generateCustomSKU_brand_rule_counterexample :
    generateCustomSKU "Electrónicos" "a-b" [] = "ELE-A-B-001" ∧
    generateSkuClaimModel "Electrónicos" "a-b" [] = "ELE-ABX-001" ∧
    generateCustomSKU "Electrónicos" "a-b" [] ≠
      generateSkuClaimModel "Electrónicos" "a-b" [] := by
  decide

/-- C8 (amended).  `generateCustomSKU` returns `"<CAT>-<BRD>-<NNN>"` where
BRD is: `GEN` when the brand trims to empty; the trimmed upper-cased brand
itself right-padded with `X` when it has at most 3 characters
(non-alphanumerics kept); otherwise the first 3 of its letters `A`–`Z`
when at least 3 remain after stripping non-letters; otherwise its first 3
alphanumerics padded with `X` — and NNN is the zero-padded 3-digit value
of 1 + the maximum of `parseInt` applied to the third dash-separated field
of the existing SKUs sharing the `CAT-BRD-` prefix (001 when none
parse). -/
theorem generateCustomSKU_eq_amended_model (category brand : String)
    (existingSKUs : List String) :
    generateCustomSKU category brand existingSKUs =
      generateSkuAmendedModel category brand existingSKUs := by
  unfold generateCustomSKU generateSkuAmendedModel amendedSkuSeq
  rw [generateBrandCode_eq_amended]
  dsimp only
  rw [skuSeq_if_filterMap_eq]

/-- Behaviour of the retry loop from any position: it returns one of the
candidates drawn on attempts ≤ 9, and it returns a colliding candidate
only when every remaining candidate collides. -/
theorem genAltGo_spec (fuel : Nat) :
    ∀ attempts (ex : List String) (cand : Nat → String),
      attempts + fuel = 10 → attempts ≤ 9 →
      (∃ i, attempts ≤ i ∧ i ≤ 9 ∧ genAltGo ex cand attempts fuel = cand i) ∧
      (ex.contains (genAltGo ex cand attempts fuel) = true →
        ∀ i, attempts ≤ i → i ≤ 9 → ex.contains (cand i) = true) := by
  induction fuel with
  | zero => intro attempts ex cand hsum hle; omega
  | succ fuel ih =>
    intro attempts ex cand hsum hle
    by_cases hc : ex.contains (cand attempts) = true
    · by_cases ha : attempts + 1 < 10
      · have hred : genAltGo ex cand attempts (fuel + 1) =
            genAltGo ex cand (attempts + 1) fuel := by
          simp only [genAltGo]
          rw [if_pos ⟨hc, ha⟩]
        obtain ⟨⟨i, hi1, hi2, heq⟩, hcon⟩ :=
          ih (attempts + 1) ex cand (by omega) (by omega)
        constructor
        · exact ⟨i, by omega, hi2, by rw [hred]; exact heq⟩
        · intro hmem i h1 h2
          rcases Nat.eq_or_lt_of_le h1 with h1' | h1'
          · rw [← h1']; exact hc
          · exact hcon (by rw [← hred]; exact hmem) i (by omega) h2
      · have hred : genAltGo ex cand attempts (fuel + 1) = cand attempts := by
          simp only [genAltGo]
          rw [if_neg (fun hand => ha hand.2)]
        constructor
        · exact ⟨attempts, le_refl _, by omega, hred⟩
        · intro hmem i h1 h2
          have hia : i = attempts := by omega
          rw [hia]; exact hc
    · have hred : genAltGo ex cand attempts (fuel + 1) = cand attempts := by
        simp only [genAltGo]
        rw [if_neg (fun hand => hc hand.1)]
      constructor
      · exact ⟨attempts, le_refl _, by omega, hred⟩
      · intro hmem
        rw [hred] at hmem
        exact absurd hmem hc

/-- C10 counterexample.  When every candidate collides with
`existingBarcodes`, `generateAlternativeBarcode` does not raise any
exhaustion error — its return type has no error at all — and it returns
the colliding barcode itself: with the single existing barcode equal to
every candidate, the result is that very duplicate. -/
theorem generateAlternativeBarcode_exhaustion_counterexample :
    generateAlternativeBarcode [generateBarcode 10000000 0]
        (fun _ => generateBarcode 10000000 0) =
      generateBarcode 10000000 0 ∧
    [generateBarcode 10000000 0].contains (generateBarcode 10000000 0) =
      true := by
  decide

/-- C10 (amended).  `generateAlternativeBarcode` retries the variable
portion for at most 10 candidate draws; it returns one of those ≤ 10
candidates, and it returns a barcode colliding with `existingBarcodes`
only when all 10 drawn candidates collide — in which case the duplicate is
returned and no error is raised. -/
theorem generateAlternativeBarcode_retry_amended (ex : List String)
    (cand : Nat → String) :
    (∃ i, i ≤ 9 ∧ generateAlternativeBarcode ex cand = cand i) ∧
    (ex.contains (generateAlternativeBarcode ex cand) = true →
      ∀ i, i ≤ 9 → ex.contains (cand i) = true) := by
  obtain ⟨⟨i, _, hi2, heq⟩, hcon⟩ := genAltGo_spec 10 0 ex cand rfl (by omega)
  exact ⟨⟨i, hi2, heq⟩, fun hmem j h2 => hcon hmem j (Nat.zero_le _) h2⟩

/-- C10 witness: in the all-colliding run, the amended theorem's collision
clause reports that the 6th candidate (like every other) collides. -/
theorem generateAlternativeBarcode_retry_amended_witness :
    [generateBarcode 10000000 0].contains
      ((fun _ => generateBarcode 10000000 0) 5) = true :=
  (generateAlternativeBarcode_retry_amended [generateBarcode 10000000 0]
      (fun _ => generateBarcode 10000000 0)).2 (by decide) 5 (by decide)

/-- Digit characters produced by `decDigitChar` pass `isDigit`. -/
theorem decDigitChar_isDigit {d : Nat} (h : d < 10) :
    (decDigitChar d).isDigit = true := by
  interval_cases d <;> decide

/-- Every character emitted by the decimal printer is a digit. -/
theorem natDecDigitsAux_all_digits (fuel : Nat) :
    ∀ n, n ≤ fuel → (natDecDigitsAux fuel n).all Char.isDigit = true := by
  induction fuel with
  | zero =>
    intro n hn
    have hn0 : n = 0 := by omega
    subst hn0
    decide
  | succ fuel ih =>
    intro n hn
    match n with
    | 0 => rw [show natDecDigitsAux (fuel + 1) 0 = ['0'] from rfl]; decide
    | (m + 1) =>
      simp only [natDecDigitsAux]
      by_cases h10 : m + 1 < 10
      · rw [if_pos h10]
        simp [decDigitChar_isDigit h10]
      · rw [if_neg h10]
        rw [List.all_append]
        have hdiv : (m + 1) / 10 ≤ fuel := by
          have := Nat.div_lt_self (show 0 < m + 1 by omega)
            (show 1 < 10 by omega)
          omega
        simp [ih _ hdiv, decDigitChar_isDigit (Nat.mod_lt _ (by norm_num))]

/-- A number of at least `k + 1` decimal digits prints at least `k + 1`
characters. -/
theorem natDecDigitsAux_length (fuel : Nat) :
    ∀ n k, n ≤ fuel → 10 ^ k ≤ n →
      k + 1 ≤ (natDecDigitsAux fuel n).length := by
  induction fuel with
  | zero =>
    intro n k hn hp
    have h1 : 0 < 10 ^ k := pow_pos (by norm_num) k
    omega
  | succ fuel ih =>
    intro n k hn hp
    have h1 : 0 < 10 ^ k := pow_pos (by norm_num) k
    match n with
    | 0 => omega
    | (m + 1) =>
      simp only [natDecDigitsAux]
      by_cases h10 : m + 1 < 10
      · rw [if_pos h10]
        have hk : k = 0 := by
          by_contra hk0
          have h10k : 10 ^ 1 ≤ 10 ^ k :=
            Nat.pow_le_pow_right (by norm_num) (by omega)
          simp at h10k
          omega
        subst hk
        simp
      · rw [if_neg h10]
        rw [List.length_append]
        match k with
        | 0 => simp
        | (j + 1) =>
          have hdiv10 : 10 ^ j ≤ (m + 1) / 10 := by
            rw [Nat.le_div_iff_mul_le (by norm_num)]
            calc 10 ^ j * 10 = 10 ^ (j + 1) := by ring
            _ ≤ m + 1 := hp
          have hdivle : (m + 1) / 10 ≤ fuel := by
            have := Nat.div_lt_self (show 0 < m + 1 by omega)
              (show 1 < 10 by omega)
            omega
          have := ih ((m + 1) / 10) j hdivle hdiv10
          simp
          omega

/-- A single decimal digit prints as its one digit character. -/
theorem natDecRepr_single {d : Nat} (h : d < 10) :
    (natDecRepr d).data = [decDigitChar d] := by
  match d with
  | 0 => decide
  | (m + 1) =>
    unfold natDecRepr
    simp only [natDecDigitsAux]
    rw [if_pos h]

/-- The check digit value is always a single digit. -/
theorem checkDigit_lt (code : String) :
    (10 - (ean13Sum 0 code.data) % 10) % 10 < 10 :=
  Nat.mod_lt _ (by norm_num)

/-- Appending `calculateEAN13CheckDigit` to any 12-digit base yields a
string accepted by `validateBarcodeFormat`. -/
theorem validate_append_checkDigit (base : String)
    (hdig : base.data.all Char.isDigit = true)
    (hlen : base.data.length = 12) :
    validateBarcodeFormat (base ++ calculateEAN13CheckDigit base) = true := by
  have hv := checkDigit_lt base
  have hchk : (calculateEAN13CheckDigit base).data =
      [decDigitChar ((10 - (ean13Sum 0 base.data) % 10) % 10)] :=
    natDecRepr_single hv
  have hdata : (base ++ calculateEAN13CheckDigit base).data =
      base.data ++
        [decDigitChar ((10 - (ean13Sum 0 base.data) % 10) % 10)] := by
    rw [String.data_append base (calculateEAN13CheckDigit base), hchk]
  unfold validateBarcodeFormat
  have hlen13 : (base ++ calculateEAN13CheckDigit base).length = 13 := by
    show (base ++ calculateEAN13CheckDigit base).data.length = 13
    rw [hdata, List.length_append, hlen]
    rfl
  rw [if_neg (by rw [hlen13]; omega)]
  have halldig :
      ((base ++ calculateEAN13CheckDigit base).data.all Char.isDigit) =
        true := by
    rw [hdata, List.all_append, hdig]
    simp [decDigitChar_isDigit hv]
  rw [halldig]
  simp only [Bool.not_true, if_neg]
  have htake : (base ++ calculateEAN13CheckDigit base).data.take 12 =
      base.data := by
    rw [hdata, ← hlen, List.take_left base.data _]
  have hdrop : (base ++ calculateEAN13CheckDigit base).data.drop 12 =
      [decDigitChar ((10 - (ean13Sum 0 base.data) % 10) % 10)] := by
    rw [hdata, ← hlen, List.drop_left base.data _]
  rw [htake, hdrop]
  show (String.mk [decDigitChar ((10 - (ean13Sum 0 base.data) % 10) % 10)] ==
    calculateEAN13CheckDigit (String.mk base.data)) = true
  have hmk : String.mk base.data = base := rfl
  rw [hmk]
  have hone : String.mk
      [decDigitChar ((10 - (ean13Sum 0 base.data) % 10) % 10)] =
      calculateEAN13CheckDigit base := by
    apply String.ext
    rw [hchk]
  rw [hone]
  exact beq_self_eq_true _

/-- Dropping characters preserves all-digits. -/
theorem allDigits_drop (l : List Char) (k : Nat)
    (h : l.all Char.isDigit = true) : (l.drop k).all Char.isDigit = true := by
  rw [List.all_eq_true] at h ⊢
  intro x hx
  exact h x (List.drop_subset k l hx)

/-- `natDecRepr` prints only digits. -/
theorem natDecRepr_all_digits (n : Nat) :
    (natDecRepr n).data.all Char.isDigit = true :=
  natDecDigitsAux_all_digits n n le_rfl

/-- A `Date.now()` value of at least `10 ^ 7` prints at least 8 digits. -/
theorem natDecRepr_length (n : Nat) (hn : 10 ^ 7 ≤ n) :
    8 ≤ (natDecRepr n).data.length :=
  natDecDigitsAux_length n n 7 le_rfl hn

/-- The character list of the 12-character base of `generateBarcode`. -/
theorem generateBarcode_base_data (now rand : Nat) :
    ("789" ++ sliceLast (natDecRepr now) 8 ++ natDecRepr rand).data =
      ("789".data ++ (sliceLast (natDecRepr now) 8).data) ++
        (natDecRepr rand).data := by
  rw [String.data_append ("789" ++ sliceLast (natDecRepr now) 8)
      (natDecRepr rand),
    String.data_append "789" (sliceLast (natDecRepr now) 8)]

/-- The base is all digits. -/
theorem generateBarcode_base_digits (now rand : Nat) (hrand : rand < 10) :
    ("789" ++ sliceLast (natDecRepr now) 8 ++
      natDecRepr rand).data.all Char.isDigit = true := by
  rw [generateBarcode_base_data, List.all_append, List.all_append]
  have h1 : ("789" : String).data.all Char.isDigit = true := by decide
  have h2 : (sliceLast (natDecRepr now) 8).data.all Char.isDigit = true := by
    show (((natDecRepr now).data.drop _).all Char.isDigit) = true
    exact allDigits_drop _ _ (natDecRepr_all_digits now)
  have h3 : (natDecRepr rand).data.all Char.isDigit = true := by
    rw [natDecRepr_single hrand]
    simp [decDigitChar_isDigit hrand]
  rw [h1, h2, h3]
  rfl

/-- The base has exactly 12 characters once the timestamp has at least 8
digits. -/
theorem generateBarcode_base_length (now rand : Nat) (hnow : 10 ^ 7 ≤ now)
    (hrand : rand < 10) :
    ("789" ++ sliceLast (natDecRepr now) 8 ++
      natDecRepr rand).data.length = 12 := by
  rw [generateBarcode_base_data, List.length_append, List.length_append]
  have h1 : ("789" : String).data.length = 3 := by decide
  have h2 : (sliceLast (natDecRepr now) 8).data.length = 8 := by
    show ((natDecRepr now).data.drop _).length = 8
    rw [List.length_drop]
    have := natDecRepr_length now hnow
    omega
  have h3 : (natDecRepr rand).data.length = 1 := by
    rw [natDecRepr_single hrand]
    rfl
  rw [h1, h2, h3]

/-- The checksum loop equals the indexed weighted sum over `enumFrom`. -/
theorem ean13Sum_enumFrom (l : List Char) :
    ∀ i, ean13Sum i l =
      ((l.enumFrom i).map fun p =>
        charDigitVal p.2 * (if p.1 % 2 = 0 then 1 else 3)).sum := by
  induction l with
  | nil => intro i; rfl
  | cons c rest ih =>
    intro i
    simp only [ean13Sum, List.enumFrom, List.map_cons, List.sum_cons, ih]

/-- The source's checksum agrees with the spec formula
`(10 − (Σ dᵢ·wᵢ mod 10)) mod 10` over the digit values. -/
theorem ean13ChecksumSpec_eq (l : List Char) :
    ean13ChecksumSpec (l.map charDigitVal) =
      (10 - (ean13Sum 0 l) % 10) % 10 := by
  unfold ean13ChecksumSpec
  rw [ean13Sum_enumFrom l 0]
  have henum : (l.map charDigitVal).enum.map
      (fun p => p.2 * (if p.1 % 2 = 0 then 1 else 3)) =
      (l.enumFrom 0).map
        (fun p => charDigitVal p.2 * (if p.1 % 2 = 0 then 1 else 3)) := by
    show (l.map charDigitVal).enum.map _ = l.enum.map _
    rw [List.enum_map l charDigitVal, List.map_map]
    rfl
  rw [henum]

/-- The first 12 and last characters of a generated barcode. -/
theorem generateBarcode_take_drop (now rand : Nat) (hnow : 10 ^ 7 ≤ now)
    (hrand : rand < 10) :
    (generateBarcode now rand).data.take 12 =
      ("789" ++ sliceLast (natDecRepr now) 8 ++ natDecRepr rand).data ∧
    (generateBarcode now rand).data.drop 12 =
      [decDigitChar ((10 -
        (ean13Sum 0 ("789" ++ sliceLast (natDecRepr now) 8 ++
          natDecRepr rand).data) % 10) % 10)] := by
  have hlen := generateBarcode_base_length now rand hnow hrand
  have hchk := natDecRepr_single
    (checkDigit_lt ("789" ++ sliceLast (natDecRepr now) 8 ++ natDecRepr rand))
  have hdata : (generateBarcode now rand).data =
      ("789" ++ sliceLast (natDecRepr now) 8 ++ natDecRepr rand).data ++
        [decDigitChar ((10 -
          (ean13Sum 0 ("789" ++ sliceLast (natDecRepr now) 8 ++
            natDecRepr rand).data) % 10) % 10)] := by
    show (("789" ++ sliceLast (natDecRepr now) 8 ++ natDecRepr rand) ++
      calculateEAN13CheckDigit
        ("789" ++ sliceLast (natDecRepr now) 8 ++ natDecRepr rand)).data = _
    rw [String.data_append]
    unfold calculateEAN13CheckDigit
    rw [hchk]
  constructor
  · rw [hdata, ← hlen, List.take_left _ _]
  · rw [hdata, ← hlen, List.drop_left _ _]

/-- C9.  `validateBarcode ∘ generateBarcode ≡ true`: for every `Date.now()`
value of at least 8 decimal digits and every random digit, the generated
barcode is a 13-character all-digit string whose last digit is the spec's
EAN-13 checksum `(10 − (Σ dᵢ·wᵢ mod 10)) mod 10` of its first 12 digits
(weight 1 at even 0-indexed positions, 3 at odd), and
`validateBarcodeFormat` accepts it. -/
theorem generateBarcode_validates (now rand : Nat) (hnow : 10 ^ 7 ≤ now)
    (hrand : rand < 10) :
    validateBarcodeFormat (generateBarcode now rand) = true ∧
    (generateBarcode now rand).length = 13 ∧
    (generateBarcode now rand).data.all Char.isDigit = true ∧
    (generateBarcode now rand).data.drop 12 =
      [decDigitChar (ean13ChecksumSpec
        (((generateBarcode now rand).data.take 12).map charDigitVal))] := by
  obtain ⟨htake, hdrop⟩ := generateBarcode_take_drop now rand hnow hrand
  have hval : validateBarcodeFormat (generateBarcode now rand) = true := by
    unfold generateBarcode
    exact validate_append_checkDigit _
      (generateBarcode_base_digits now rand hrand)
      (generateBarcode_base_length now rand hnow hrand)
  refine ⟨hval, ?_, ?_, ?_⟩
  · unfold validateBarcodeFormat at hval
    by_cases hl : (generateBarcode now rand).length = 13
    · exact hl
    · rw [if_pos hl] at hval
      exact absurd hval (by simp)
  · unfold validateBarcodeFormat at hval
    split at hval
    · exact absurd hval (by simp)
    · by_cases hd : (generateBarcode now rand).data.all Char.isDigit = true
      · exact hd
      · rw [if_pos (by simpa using hd)] at hval
        exact absurd hval (by simp)
  · rw [htake, hdrop, ean13ChecksumSpec_eq]

/-- C9 witness: a concrete timestamp and random digit produce a barcode
that validates and carries the spec checksum. -/
theorem generateBarcode_validates_witness :
    validateBarcodeFormat (generateBarcode 1728000000000 7) = true ∧
    (generateBarcode 1728000000000 7).length = 13 ∧
    (generateBarcode 1728000000000 7).data.all Char.isDigit = true ∧
    (generateBarcode 1728000000000 7).data.drop 12 =
      [decDigitChar (ean13ChecksumSpec
        (((generateBarcode 1728000000000 7).data.take 12).map
          charDigitVal))] :=
  generateBarcode_validates 1728000000000 7 (by decide) (by decide)

end ScanShelf

